import Mathlib

/-!
# Verification of the imap-listener mailbox watcher

A shallow embedding of `src/main.rs` of the `imap-listener` repository.

The program watches one IMAP mailbox, classifies each unseen message
against two string lists (allowed sender names, triggering subjects),
moves matching messages to a fixed folder and plays a notification sound
when the matching message is fresh enough.

Modelling conventions:
* Rust `String`/`&str` become Lean `String`; byte-wise string equality of
  Rust becomes Lean `String` equality.  Rust `str::to_lowercase` is
  modelled character-wise by `Char.toLower` (faithful on ASCII, which is
  all the repository's own tests and examples exercise).
* The `edit_distance::edit_distance` crate function computes the unit-cost
  Levenshtein distance; it is modelled by Mathlib's
  `levenshtein Levenshtein.defaultCost` over the character lists.
* `chrono` timestamps become `Int` (Unix seconds); the difference
  `(now - date).num_seconds()` is then exactly `now - date`.
* The Rust cast `as u32` applied to an `i64` keeps the low 32 bits of the
  two's-complement representation, i.e. the value modulo `2 ^ 32`;
  `i64_as_u32` models this with `Int.emod`, which is non-negative for a
  positive modulus.
* The `u32` argument `limit_secs` is modelled as a `Nat`; where a theorem
  needs the `u32` range it carries `limit_secs < 2 ^ 32` as a hypothesis.
* IMAP side effects are modelled as an emitted trace of `Event`s, and the
  fallible server operations are driven by oracle functions
  (`FetchRes`, `SearchRes`, `IdleRes`, and a triple of `Bool`s for the
  three steps of a move).  A Rust `unwrap`/`expect` panic is modelled by
  the outcome `panicked`: the process aborts.
* The allow-lists are re-read from disk for every candidate message; the
  model passes the two lists as fixed values, i.e. it describes runs in
  which every read succeeds and yields the same lists.
-/

namespace ImapListener

/-- Character-wise lowercasing of a string, modelling Rust
`str::to_lowercase` (exact on ASCII input). -/
def lowercase (s : String) : List Char :=
  s.data.map Char.toLower

/-- Model of `person_allowed` (src/main.rs:96-98): exact, case-sensitive
membership of the sender name in the allowed-people list. -/
def person_allowed (person : String) (allowed_people : List String) : Bool :=
  allowed_people.contains person

/-- Model of `subject_is_triggering` (src/main.rs:109-112): lower-case the
subject, then test whether any entry of the list is at Levenshtein
distance at most 2 from it; list entries are used as-is. -/
def subject_is_triggering (subject : String) (allowed_subjects : List String) : Bool :=
  let subject := lowercase subject
  allowed_subjects.any fun allowed_subject =>
    decide (levenshtein Levenshtein.defaultCost subject allowed_subject.data ≤ 2)

/-- The Rust cast `d as u32` for `d : i64`: the value modulo `2 ^ 32`
(low 32 bits of the two's-complement representation). -/
def i64_as_u32 (d : Int) : Nat :=
  (d % (2 ^ 32)).toNat

/-- Model of `mail_too_old` (src/main.rs:114-118).  The Rust function
reads the clock itself; here `now` is an explicit parameter.  The signed
difference in seconds is cast to `u32` (`i64_as_u32`) and compared
strictly against the expiration limit. -/
def mail_too_old (now date : Int) (limit_secs : Nat) : Bool :=
  let difference_in_seconds := i64_as_u32 (now - date)
  decide (difference_in_seconds > limit_secs)

/-- Envelope metadata of one message, after decoding: parsed date
(Unix seconds), sender display name, subject. -/
structure Envelope where
  date : Int
  fromName : String
  subject : String
deriving DecidableEq, Repr

/-- Result of `imap.fetch(uid, "ENVELOPE")` for one uid: a protocol error
(the code calls `.unwrap()`, so the process panics), a reply without a
header (the code logs and skips), or an envelope. -/
inductive FetchRes where
  | err
  | noHeader
  | ok (e : Envelope)
deriving DecidableEq, Repr

/-- Observable actions of the program, in the order they are performed. -/
inductive Event where
  | searchUnseen
  | fetch (uid : Nat)
  | skipNoHeader (uid : Nat)
  | copy (uid : Nat) (folder : String)
  | storeDeleted (uid : Nat)
  | expunge
  | notify
  | idleWait
  | logFailure
  | sleep (secs : Nat)
deriving DecidableEq, Repr

/-- Model of `move_email` (src/main.rs:120-124): copy to the target
folder, flag `\Deleted`, expunge, each step via `.unwrap()`.  The three
`Bool`s say whether the copy, store and expunge calls succeed.  Returns
the trace of attempted protocol steps and whether the function panicked
(a failing step still appears in the trace as the attempted command). -/
def move_email (mail_uid : Nat) (target_folder : String)
    (copyOk storeOk expungeOk : Bool) : List Event × Bool :=
  if copyOk = false then
    ([.copy mail_uid target_folder], true)
  else if storeOk = false then
    ([.copy mail_uid target_folder, .storeDeleted mail_uid], true)
  else if expungeOk = false then
    ([.copy mail_uid target_folder, .storeDeleted mail_uid, .expunge], true)
  else
    ([.copy mail_uid target_folder, .storeDeleted mail_uid, .expunge], false)

/-- The classification test of src/main.rs:199: allowed sender AND
triggering subject. -/
def message_matches (allowed_people triggering_subjects : List String)
    (e : Envelope) : Bool :=
  person_allowed e.fromName allowed_people &&
    subject_is_triggering e.subject triggering_subjects

/-- How one pass over a batch of search results ends: `restarted uid`
models `continue 'fetch_mails` after acting on `uid` (src/main.rs:205),
`completed` models falling through to the IDLE wait, `panicked` models a
process abort from an `unwrap`. -/
inductive BatchOutcome where
  | restarted (uid : Nat)
  | completed
  | panicked
deriving DecidableEq, Repr

/-- Model of the `for mail_uid in search_results` loop
(src/main.rs:188-210).  `fetchRes` drives the envelope fetches and `mv`
gives the copy/store/expunge results for a move of each uid.  For each
uid in order: fetch the envelope (a protocol error panics); if no header
is present, log and skip; otherwise, if the message matches, move it to
"Jedzenie", notify when the mail is not too old, and restart the batch
(`continue 'fetch_mails`), abandoning the remaining uids. -/
def process_batch (fetchRes : Nat → FetchRes) (mv : Nat → Bool × Bool × Bool)
    (now : Int) (limit_secs : Nat)
    (allowed_people triggering_subjects : List String) :
    List Nat → List Event × BatchOutcome
  | [] => ([], .completed)
  | mail_uid :: rest =>
    match fetchRes mail_uid with
    | .err => ([.fetch mail_uid], .panicked)
    | .noHeader =>
      let r := process_batch fetchRes mv now limit_secs
        allowed_people triggering_subjects rest
      (.fetch mail_uid :: .skipNoHeader mail_uid :: r.1, r.2)
    | .ok e =>
      if message_matches allowed_people triggering_subjects e then
        let m := move_email mail_uid "Jedzenie"
          (mv mail_uid).1 (mv mail_uid).2.1 (mv mail_uid).2.2
        if m.2 then
          (.fetch mail_uid :: m.1, .panicked)
        else if mail_too_old now e.date limit_secs then
          (.fetch mail_uid :: m.1, .restarted mail_uid)
        else
          (.fetch mail_uid :: (m.1 ++ [.notify]), .restarted mail_uid)
      else
        let r := process_batch fetchRes mv now limit_secs
          allowed_people triggering_subjects rest
        (.fetch mail_uid :: r.1, r.2)

/-- Result of `imap.search("UNSEEN")` for one round of the scan loop. -/
inductive SearchRes where
  | err
  | ok (uids : List Nat)
deriving DecidableEq, Repr

/-- Result of the IDLE wait for one round of the scan loop. -/
inductive IdleRes where
  | err
  | ok
deriving DecidableEq, Repr

/-- How the `'fetch_mails` loop ends: `reconnect` models
`continue 'connect` (search or idle error), `panicked` a process abort,
`outOfFuel` an unfinished run (the loop itself never terminates
normally). -/
inductive WatcherOutcome where
  | reconnect
  | panicked
  | outOfFuel
deriving DecidableEq, Repr

/-- Model of the `'fetch_mails` loop (src/main.rs:175-228), fuelled.
Each round (numbered by `round`): search for unseen uids (an error logs
and reconnects), process the batch; a restarted batch loops straight back
to a fresh search, a completed batch enters the IDLE wait (an idle error
logs and reconnects, a normal wake-up loops back to a fresh search). -/
def run_watcher (fetchRes : Nat → FetchRes) (mv : Nat → Bool × Bool × Bool)
    (now : Int) (limit_secs : Nat)
    (allowed_people triggering_subjects : List String)
    (searchRes : Nat → SearchRes) (idleRes : Nat → IdleRes) :
    Nat → Nat → List Event × WatcherOutcome
  | _, 0 => ([], .outOfFuel)
  | round, fuel + 1 =>
    match searchRes round with
    | .err => ([.searchUnseen, .logFailure], .reconnect)
    | .ok uids =>
      let b := process_batch fetchRes mv now limit_secs
        allowed_people triggering_subjects uids
      match b.2 with
      | .panicked => (.searchUnseen :: b.1, .panicked)
      | .restarted _ =>
        let r := run_watcher fetchRes mv now limit_secs
          allowed_people triggering_subjects searchRes idleRes (round + 1) fuel
        (.searchUnseen :: b.1 ++ r.1, r.2)
      | .completed =>
        match idleRes round with
        | .err => (.searchUnseen :: b.1 ++ [.idleWait, .logFailure], .reconnect)
        | .ok =>
          let r := run_watcher fetchRes mv now limit_secs
            allowed_people triggering_subjects searchRes idleRes (round + 1) fuel
          (.searchUnseen :: b.1 ++ [.idleWait] ++ r.1, r.2)

/-- Result of one fallible step of connection establishment
(transport construction, login, or mailbox selection). -/
inductive StepRes where
  | err
  | ok
deriving DecidableEq, Repr

/-- How one iteration of the outer `'connect` loop ends: `retry` models
`continue 'connect` (the next iteration rebuilds the transport),
`panicked` a process abort, `outOfFuel` an unfinished watcher run. -/
inductive ConnOutcome where
  | retry
  | panicked
  | outOfFuel
deriving DecidableEq, Repr

/-- Model of one iteration of the `'connect` loop (src/main.rs:140-230).
A transport-construction or login failure logs, sleeps `refresh_rate`
seconds, and retries; a mailbox-selection failure panics
(`.expect("Could not select mailbox")`, src/main.rs:173); otherwise the
watcher runs, and its reconnect outcome retries the `'connect` loop
immediately (no sleep), while a watcher panic aborts the process. -/
def conn_iteration (refresh_rate : Nat)
    (clientRes loginRes selectRes : StepRes)
    (fetchRes : Nat → FetchRes) (mv : Nat → Bool × Bool × Bool)
    (now : Int) (limit_secs : Nat)
    (allowed_people triggering_subjects : List String)
    (searchRes : Nat → SearchRes) (idleRes : Nat → IdleRes)
    (fuel : Nat) : List Event × ConnOutcome :=
  match clientRes with
  | .err => ([.logFailure, .sleep refresh_rate], .retry)
  | .ok =>
    match loginRes with
    | .err => ([.logFailure, .sleep refresh_rate], .retry)
    | .ok =>
      match selectRes with
      | .err => ([], .panicked)
      | .ok =>
        let w := run_watcher fetchRes mv now limit_secs
          allowed_people triggering_subjects searchRes idleRes 0 fuel
        match w.2 with
        | .reconnect => (w.1, .retry)
        | .panicked => (w.1, .panicked)
        | .outOfFuel => (w.1, .outOfFuel)

/-- Events that relocate a message or fire the notification. -/
def is_action_event : Event → Bool
  | .copy _ _ => true
  | .storeDeleted _ => true
  | .expunge => true
  | .notify => true
  | _ => false

/-- The sleep events of a trace. -/
def is_sleep_event : Event → Bool
  | .sleep _ => true
  | _ => false

/-- If no envelope can match, a batch performs no move step and no
notification, whatever the fetch results are. -/
theorem process_batch_no_action_of_no_match (fetchRes : Nat → FetchRes)
    (mv : Nat → Bool × Bool × Bool) (now : Int) (limit_secs : Nat)
    (allowed_people triggering_subjects : List String)
    (hnm : ∀ e : Envelope, message_matches allowed_people triggering_subjects e = false) :
    ∀ uids : List Nat,
      ((process_batch fetchRes mv now limit_secs allowed_people
          triggering_subjects uids).1.filter is_action_event) = [] := by
  intro uids
  induction uids with
  | nil => simp [process_batch]
  | cons mail_uid rest ih =>
    cases hf : fetchRes mail_uid with
    | err => simp [process_batch, hf, is_action_event]
    | noHeader => simp [process_batch, hf, is_action_event, ih]
    | ok e => simp [process_batch, hf, hnm e, is_action_event, ih]

/-- The trace of a move never contains a sleep event, whatever the step
results are. -/
theorem move_email_no_sleep (mail_uid : Nat) (target_folder : String)
    (copyOk storeOk expungeOk : Bool) :
    ((move_email mail_uid target_folder copyOk storeOk expungeOk).1.filter
      is_sleep_event) = [] := by
  cases copyOk <;> cases storeOk <;> cases expungeOk <;> rfl

/-- A move panics exactly when one of its three protocol steps fails. -/
theorem move_email_panics_iff (mail_uid : Nat) (target_folder : String)
    (copyOk storeOk expungeOk : Bool) :
    (move_email mail_uid target_folder copyOk storeOk expungeOk).2 = true ↔
      (copyOk = false ∨ storeOk = false ∨ expungeOk = false) := by
  cases copyOk <;> cases storeOk <;> cases expungeOk <;> simp [move_email]

/-- The trace of a batch never contains a sleep event. -/
theorem process_batch_no_sleep (fetchRes : Nat → FetchRes)
    (mv : Nat → Bool × Bool × Bool) (now : Int) (limit_secs : Nat)
    (allowed_people triggering_subjects : List String) :
    ∀ uids : List Nat,
      ((process_batch fetchRes mv now limit_secs allowed_people
          triggering_subjects uids).1.filter is_sleep_event) = [] := by
  intro uids
  induction uids with
  | nil => simp [process_batch]
  | cons mail_uid rest ih =>
    cases hf : fetchRes mail_uid with
    | err => simp [process_batch, hf, is_sleep_event]
    | noHeader => simp [process_batch, hf, is_sleep_event, ih]
    | ok e =>
      cases hm : message_matches allowed_people triggering_subjects e with
      | false => simp [process_batch, hf, hm, is_sleep_event, ih]
      | true =>
        rcases hmv : mv mail_uid with ⟨a, b, c⟩
        cases hstale : mail_too_old now e.date limit_secs <;>
          cases a <;> cases b <;> cases c <;>
            simp [process_batch, hf, hm, hmv, hstale, move_email, is_sleep_event]

/-- The trace of a watcher run never contains a sleep event: reconnects
caused by scan or idle errors happen without any delay. -/
theorem run_watcher_no_sleep (fetchRes : Nat → FetchRes)
    (mv : Nat → Bool × Bool × Bool) (now : Int) (limit_secs : Nat)
    (allowed_people triggering_subjects : List String)
    (searchRes : Nat → SearchRes) (idleRes : Nat → IdleRes) :
    ∀ fuel round : Nat,
      ((run_watcher fetchRes mv now limit_secs allowed_people
          triggering_subjects searchRes idleRes round fuel).1.filter
        is_sleep_event) = [] := by
  intro fuel
  induction fuel with
  | zero => intro round; simp [run_watcher]
  | succ fuel ih =>
    intro round
    cases hs : searchRes round with
    | err => simp [run_watcher, hs, is_sleep_event]
    | ok uids =>
      cases hb : (process_batch fetchRes mv now limit_secs allowed_people
          triggering_subjects uids).2 with
      | restarted w =>
        simp [run_watcher, hs, hb, List.filter_append, process_batch_no_sleep,
          is_sleep_event, ih]
      | completed =>
        cases hi : idleRes round with
        | err =>
          simp [run_watcher, hs, hb, hi, List.filter_append,
            process_batch_no_sleep, is_sleep_event]
        | ok =>
          simp [run_watcher, hs, hb, hi, List.filter_append,
            process_batch_no_sleep, is_sleep_event, ih]
      | panicked =>
        simp [run_watcher, hs, hb, process_batch_no_sleep, is_sleep_event]

/-- C1: when every uid before `u` in the batch fails to match (missing
header or non-matching envelope) and `u` matches and its move succeeds,
the batch run is literally the same as if the remaining uids were absent
(they are neither fetched nor classified), the batch ends with
`restarted u`; the watcher then continues with a fresh round whose first
action is a new unseen search. -/
theorem c1_match_abandons_batch_and_restarts (fetchRes : Nat → FetchRes)
    (mv : Nat → Bool × Bool × Bool) (now : Int) (limit_secs : Nat)
    (allowed_people triggering_subjects : List String)
    (searchRes : Nat → SearchRes) (idleRes : Nat → IdleRes)
    (l₁ l₂ : List Nat) (u : Nat) (e : Envelope) (fuel fuel' : Nat)
    (h₁ : ∀ v ∈ l₁, fetchRes v = FetchRes.noHeader ∨
        ∃ e', fetchRes v = FetchRes.ok e' ∧
          message_matches allowed_people triggering_subjects e' = false)
    (h₂ : fetchRes u = FetchRes.ok e)
    (h₃ : message_matches allowed_people triggering_subjects e = true)
    (h₄ : mv u = (true, true, true)) :
    process_batch fetchRes mv now limit_secs allowed_people triggering_subjects
        (l₁ ++ u :: l₂) =
      process_batch fetchRes mv now limit_secs allowed_people triggering_subjects
        (l₁ ++ [u]) ∧
      (process_batch fetchRes mv now limit_secs allowed_people triggering_subjects
          (l₁ ++ u :: l₂)).2 = .restarted u ∧
      (searchRes 0 = .ok (l₁ ++ u :: l₂) →
        run_watcher fetchRes mv now limit_secs allowed_people triggering_subjects
            searchRes idleRes 0 (fuel + 1) =
          (.searchUnseen ::
              (process_batch fetchRes mv now limit_secs allowed_people
                triggering_subjects (l₁ ++ [u])).1 ++
              (run_watcher fetchRes mv now limit_secs allowed_people
                triggering_subjects searchRes idleRes 1 fuel).1,
            (run_watcher fetchRes mv now limit_secs allowed_people
              triggering_subjects searchRes idleRes 1 fuel).2)) ∧
      ((run_watcher fetchRes mv now limit_secs allowed_people triggering_subjects
          searchRes idleRes 1 (fuel' + 1)).1.head? = some .searchUnseen) := by
  have key : ∀ l₁ : List Nat,
      (∀ v ∈ l₁, fetchRes v = FetchRes.noHeader ∨
        ∃ e', fetchRes v = FetchRes.ok e' ∧
          message_matches allowed_people triggering_subjects e' = false) →
      process_batch fetchRes mv now limit_secs allowed_people triggering_subjects
          (l₁ ++ u :: l₂) =
        process_batch fetchRes mv now limit_secs allowed_people triggering_subjects
          (l₁ ++ [u]) ∧
        (process_batch fetchRes mv now limit_secs allowed_people triggering_subjects
            (l₁ ++ u :: l₂)).2 = .restarted u := by
    intro l₁
    induction l₁ with
    | nil =>
      intro _
      cases hstale : mail_too_old now e.date limit_secs <;>
        simp [process_batch, h₂, h₃, h₄, move_email, hstale]
    | cons v l₁ ih =>
      intro h₁
      have hv := h₁ v (List.mem_cons_self v l₁)
      have ih' := ih fun w hw => h₁ w (List.mem_cons_of_mem v hw)
      rcases hv with hv | ⟨e', hv, hm'⟩
      · constructor
        · simp only [List.cons_append, process_batch, hv, List.append_eq]
          rw [ih'.1]
        · simp only [List.cons_append, process_batch, hv, List.append_eq]
          exact ih'.2
      · constructor
        · simp only [List.cons_append, process_batch, hv, hm', List.append_eq,
            Bool.false_eq_true, if_false]
          rw [ih'.1]
        · simp only [List.cons_append, process_batch, hv, hm', List.append_eq,
            Bool.false_eq_true, if_false]
          exact ih'.2
  have hk := key l₁ h₁
  refine ⟨hk.1, hk.2, fun hs => ?_, ?_⟩
  · have h2' : (process_batch fetchRes mv now limit_secs allowed_people
        triggering_subjects (l₁ ++ [u])).2 = .restarted u := hk.1 ▸ hk.2
    simp [run_watcher, hs, hk.1, h2']
  · cases hs1 : searchRes 1 with
    | err => simp [run_watcher, hs1]
    | ok uids =>
      cases hb : (process_batch fetchRes mv now limit_secs allowed_people
          triggering_subjects uids).2 with
      | restarted w => simp [run_watcher, hs1, hb]
      | completed =>
        cases hi : idleRes 1 with
        | err => simp [run_watcher, hs1, hb, hi]
        | ok => simp [run_watcher, hs1, hb, hi]
      | panicked => simp [run_watcher, hs1, hb]

/-- C1 witness: a concrete batch [1, 2, 3, 4] in which uid 1 has no
header and uid 2 matches: the run equals the run on [1, 2] — uids 3 and 4
are abandoned — and the batch restarts the scan. -/
theorem c1_match_abandons_batch_and_restarts_witness :
    process_batch (fun v => if v = 1 then FetchRes.noHeader
        else FetchRes.ok ⟨0, "Alice", "pizza"⟩)
      (fun _ => (true, true, true)) 0 180 ["Alice"] ["pizza"]
      ([1] ++ 2 :: [3, 4]) =
      process_batch (fun v => if v = 1 then FetchRes.noHeader
          else FetchRes.ok ⟨0, "Alice", "pizza"⟩)
        (fun _ => (true, true, true)) 0 180 ["Alice"] ["pizza"] ([1] ++ [2]) ∧
      (process_batch (fun v => if v = 1 then FetchRes.noHeader
          else FetchRes.ok ⟨0, "Alice", "pizza"⟩)
        (fun _ => (true, true, true)) 0 180 ["Alice"] ["pizza"]
        ([1] ++ 2 :: [3, 4])).2 = .restarted 2 := by
  have h := c1_match_abandons_batch_and_restarts
    (fun v => if v = 1 then FetchRes.noHeader
      else FetchRes.ok ⟨0, "Alice", "pizza"⟩)
    (fun _ => (true, true, true)) 0 180 ["Alice"] ["pizza"]
    (fun _ => SearchRes.ok ([1] ++ 2 :: [3, 4])) (fun _ => IdleRes.ok)
    [1] [3, 4] 2 ⟨0, "Alice", "pizza"⟩ 0 0
    (by
      intro v hv
      rw [List.mem_singleton] at hv
      subst hv
      exact Or.inl rfl)
    rfl (by decide) rfl
  exact ⟨h.1, h.2.1⟩

/-- C2 counterexample: a mailbox-selection failure does not log, sleep
and restart — the `.expect` on `imap.select` aborts the process. -/
theorem c2_select_failure_aborts :
    conn_iteration 10 .ok .ok .err (fun _ => FetchRes.err)
      (fun _ => (true, true, true)) 0 180 [] [] (fun _ => SearchRes.err)
      (fun _ => IdleRes.err) 1 = ([], .panicked) := rfl

/-- C2 amended: a transport-construction failure and a login failure each
log, sleep `refresh_rate` seconds and retry the connection loop; a
mailbox-selection failure aborts the process; an error surfaced by the
watcher (scan or idle failure) retries the connection loop immediately —
its trace contains no sleep at all. -/
theorem c2_amended_failure_handling (refresh_rate : Nat)
    (fetchRes : Nat → FetchRes) (mv : Nat → Bool × Bool × Bool)
    (now : Int) (limit_secs : Nat)
    (allowed_people triggering_subjects : List String)
    (searchRes : Nat → SearchRes) (idleRes : Nat → IdleRes)
    (loginRes selectRes : StepRes) (fuel : Nat) :
    conn_iteration refresh_rate .err loginRes selectRes fetchRes mv now
        limit_secs allowed_people triggering_subjects searchRes idleRes fuel =
      ([.logFailure, .sleep refresh_rate], .retry) ∧
      conn_iteration refresh_rate .ok .err selectRes fetchRes mv now
          limit_secs allowed_people triggering_subjects searchRes idleRes fuel =
        ([.logFailure, .sleep refresh_rate], .retry) ∧
      conn_iteration refresh_rate .ok .ok .err fetchRes mv now
          limit_secs allowed_people triggering_subjects searchRes idleRes fuel =
        ([], .panicked) ∧
      ((run_watcher fetchRes mv now limit_secs allowed_people
          triggering_subjects searchRes idleRes 0 fuel).2 = .reconnect →
        conn_iteration refresh_rate .ok .ok .ok fetchRes mv now
            limit_secs allowed_people triggering_subjects searchRes idleRes fuel =
          ((run_watcher fetchRes mv now limit_secs allowed_people
              triggering_subjects searchRes idleRes 0 fuel).1, .retry) ∧
          ((run_watcher fetchRes mv now limit_secs allowed_people
              triggering_subjects searchRes idleRes 0 fuel).1.filter
            is_sleep_event) = []) := by
  refine ⟨rfl, rfl, rfl, fun hw => ⟨?_, ?_⟩⟩
  · simp [conn_iteration, hw]
  · exact run_watcher_no_sleep fetchRes mv now limit_secs allowed_people
      triggering_subjects searchRes idleRes fuel 0

/-- C2 witness: a scan failure on a live session retries the connection
loop (its trace being a search and a log, with no sleep). -/
theorem c2_amended_failure_handling_witness :
    conn_iteration 10 .ok .ok .ok (fun _ => FetchRes.err)
      (fun _ => (true, true, true)) 0 180 [] [] (fun _ => SearchRes.err)
      (fun _ => IdleRes.ok) 1 = ([.searchUnseen, .logFailure], .retry) := by
  have h := (c2_amended_failure_handling 10 (fun _ => FetchRes.err)
    (fun _ => (true, true, true)) 0 180 [] [] (fun _ => SearchRes.err)
    (fun _ => IdleRes.ok) .ok .ok 1).2.2.2 rfl
  exact h.1

/-- C3 counterexample: a protocol error on the envelope fetch of uid 7 is
not connection-fatal — the `.unwrap()` aborts the whole process instead
of reconnecting. -/
theorem c3_fetch_error_aborts_process :
    conn_iteration 10 .ok .ok .ok (fun _ => FetchRes.err)
      (fun _ => (true, true, true)) 0 180 [] [] (fun _ => SearchRes.ok [7])
      (fun _ => IdleRes.ok) 1 = ([.searchUnseen, .fetch 7], .panicked) := rfl

/-- C3 amended: protocol errors during the unseen search and during the
idle wait are connection-fatal (the session ends and the connection loop
retries), but protocol errors during the envelope fetch or during any of
the three move steps abort the process via a panic instead of
reconnecting. -/
theorem c3_amended_scan_idle_reconnect_fetch_move_abort (refresh_rate : Nat)
    (fetchRes : Nat → FetchRes) (mv : Nat → Bool × Bool × Bool)
    (now : Int) (limit_secs : Nat)
    (allowed_people triggering_subjects : List String)
    (searchRes : Nat → SearchRes) (idleRes : Nat → IdleRes)
    (fuel : Nat) (uids : List Nat) (u : Nat) (rest : List Nat) (e : Envelope) :
    (searchRes 0 = .err →
      (conn_iteration refresh_rate .ok .ok .ok fetchRes mv now limit_secs
        allowed_people triggering_subjects searchRes idleRes (fuel + 1)).2 =
        .retry) ∧
      (searchRes 0 = .ok uids →
        (process_batch fetchRes mv now limit_secs allowed_people
          triggering_subjects uids).2 = .completed →
        idleRes 0 = .err →
        (conn_iteration refresh_rate .ok .ok .ok fetchRes mv now limit_secs
          allowed_people triggering_subjects searchRes idleRes (fuel + 1)).2 =
          .retry) ∧
      (searchRes 0 = .ok (u :: rest) → fetchRes u = .err →
        (conn_iteration refresh_rate .ok .ok .ok fetchRes mv now limit_secs
          allowed_people triggering_subjects searchRes idleRes (fuel + 1)).2 =
          .panicked) ∧
      (searchRes 0 = .ok (u :: rest) → fetchRes u = .ok e →
        message_matches allowed_people triggering_subjects e = true →
        ((mv u).1 = false ∨ (mv u).2.1 = false ∨ (mv u).2.2 = false) →
        (conn_iteration refresh_rate .ok .ok .ok fetchRes mv now limit_secs
          allowed_people triggering_subjects searchRes idleRes (fuel + 1)).2 =
          .panicked) := by
  refine ⟨fun hs => ?_, fun hs hb hi => ?_, fun hs hf => ?_,
    fun hs hf hm hmv => ?_⟩
  · simp [conn_iteration, run_watcher, hs]
  · simp [conn_iteration, run_watcher, hs, hb, hi]
  · simp [conn_iteration, run_watcher, hs, process_batch, hf]
  · have hpanic : (move_email u "Jedzenie" (mv u).1 (mv u).2.1 (mv u).2.2).2 =
        true := (move_email_panics_iff u "Jedzenie" _ _ _).mpr hmv
    simp [conn_iteration, run_watcher, hs, process_batch, hf, hm, hpanic]

/-- C3 witness: an unseen-search failure on a live session ends with a
connection-loop retry. -/
theorem c3_amended_witness :
    (conn_iteration 10 .ok .ok .ok (fun _ => FetchRes.err)
      (fun _ => (true, true, true)) 0 180 [] [] (fun _ => SearchRes.err)
      (fun _ => IdleRes.err) 1).2 = .retry :=
  (c3_amended_scan_idle_reconnect_fetch_move_abort 10 (fun _ => FetchRes.err)
    (fun _ => (true, true, true)) 0 180 [] [] (fun _ => SearchRes.err)
    (fun _ => IdleRes.err) 0 [] 0 [] ⟨0, "", ""⟩).1 rfl

/-- C5: for a message whose envelope fetch and move steps succeed: when
it matches and is not stale, the batch performs the move and the
notification; when it matches and is stale, it performs the move but not
the notification; a non-matching message (alone in its batch) triggers
neither. -/
theorem c5_match_triggers_move_and_conditional_notify
    (fetchRes : Nat → FetchRes) (mv : Nat → Bool × Bool × Bool)
    (now : Int) (limit_secs : Nat)
    (allowed_people triggering_subjects : List String)
    (mail_uid : Nat) (rest : List Nat) (e : Envelope)
    (hf : fetchRes mail_uid = FetchRes.ok e)
    (hmv : mv mail_uid = (true, true, true)) :
    (message_matches allowed_people triggering_subjects e = true →
      mail_too_old now e.date limit_secs = false →
      process_batch fetchRes mv now limit_secs allowed_people
          triggering_subjects (mail_uid :: rest) =
        ([.fetch mail_uid, .copy mail_uid "Jedzenie", .storeDeleted mail_uid,
          .expunge, .notify], .restarted mail_uid)) ∧
      (message_matches allowed_people triggering_subjects e = true →
        mail_too_old now e.date limit_secs = true →
        process_batch fetchRes mv now limit_secs allowed_people
            triggering_subjects (mail_uid :: rest) =
          ([.fetch mail_uid, .copy mail_uid "Jedzenie", .storeDeleted mail_uid,
            .expunge], .restarted mail_uid)) ∧
      (message_matches allowed_people triggering_subjects e = false →
        process_batch fetchRes mv now limit_secs allowed_people
            triggering_subjects [mail_uid] = ([.fetch mail_uid], .completed)) := by
  refine ⟨fun hm hstale => ?_, fun hm hstale => ?_, fun hm => ?_⟩
  · simp [process_batch, hf, hm, hstale, hmv, move_email]
  · simp [process_batch, hf, hm, hstale, hmv, move_email]
  · simp [process_batch, hf, hm]

/-- C5 witness: a matching fresh message (uid 7, sender "Alice", subject
"pizza", dated now, limit 180) is fetched, moved and notified. -/
theorem c5_match_triggers_move_and_conditional_notify_witness :
    process_batch (fun _ => FetchRes.ok ⟨0, "Alice", "pizza"⟩)
      (fun _ => (true, true, true)) 0 180 ["Alice"] ["pizza"] [7] =
      ([.fetch 7, .copy 7 "Jedzenie", .storeDeleted 7, .expunge, .notify],
        .restarted 7) :=
  (c5_match_triggers_move_and_conditional_notify
    (fun _ => FetchRes.ok ⟨0, "Alice", "pizza"⟩) (fun _ => (true, true, true))
    0 180 ["Alice"] ["pizza"] 7 [] ⟨0, "Alice", "pizza"⟩ rfl rfl).1
    (by decide) (by decide)

/-- C4: evaluation of `mail_too_old` at a message dated one second in the
future (now = 1000, date = 1001, limit 180 as in the default config): the
signed difference -1 is cast to `u32`, wrapping to 4294967295, so the
future-dated message is classified stale — the computation underflows
instead of clamping to zero or treating the message as non-stale. -/
theorem c4_future_dated_mail_wraps_to_stale :
    mail_too_old 1000 1001 180 = true ∧ i64_as_u32 (1000 - 1001) = 4294967295 := by
  decide

set_option maxRecDepth 8000 in
/-- C6: `subject_is_triggering` holds exactly when some entry of the
trigger list is at Levenshtein distance at most 2 from the lower-cased
subject, the entry itself being used case-preserved; in particular the
spec's example subject "Pizza delivery" against the list
["pizza delivery"] triggers. -/
theorem c6_subject_is_triggering_iff :
    (∀ (subject : String) (triggerList : List String),
        subject_is_triggering subject triggerList = true ↔
          ∃ t ∈ triggerList,
            levenshtein Levenshtein.defaultCost (lowercase subject) t.data ≤ 2) ∧
      subject_is_triggering "Pizza delivery" ["pizza delivery"] = true := by
  constructor
  · intro subject triggerList
    simp [subject_is_triggering, List.any_eq_true]
  · decide

/-- C7 counterexample: for a future-dated message (now = 0, date = 1,
limit 180) the elapsed difference -1 does not strictly exceed the limit,
yet `mail_too_old` classifies the message as stale, because the cast to
`u32` wraps; so staleness is not equivalent to "elapsed strictly exceeds
the limit" over all dates. -/
theorem c7_not_strict_comparison_on_wrap :
    mail_too_old 0 1 180 = true ∧ ¬((0 : Int) - 1 > (180 : Int)) := by
  decide

/-- C7 amended: whenever the elapsed difference `now - date` is
non-negative and representable in `u32` (and the limit is a `u32` value),
`mail_too_old` is a strict comparison: stale exactly when the elapsed
seconds strictly exceed the limit, and not stale when they equal it. -/
theorem c7_strict_boundary (now date : Int) (limit_secs : Nat)
    (h0 : 0 ≤ now - date) (h32 : now - date < 2 ^ 32)
    (hl : limit_secs < 2 ^ 32) :
    (mail_too_old now date limit_secs = true ↔ (limit_secs : Int) < now - date) ∧
      (now - date = (limit_secs : Int) → mail_too_old now date limit_secs = false) := by
  have hmod : (now - date) % (2 ^ 32) = now - date := Int.emod_eq_of_lt h0 h32
  constructor
  · simp [mail_too_old, i64_as_u32, hmod]
    omega
  · intro h
    have hcast : i64_as_u32 (now - date) = limit_secs := by
      rw [i64_as_u32, hmod]
      omega
    simp [mail_too_old, hcast]

/-- C7 witness: with now = 1180, date = 1000, limit = 180 the elapsed
seconds equal the limit exactly and the message is not stale; with
now = 1181 they exceed it by one and the message is stale. -/
theorem c7_strict_boundary_witness :
    mail_too_old 1180 1000 180 = false ∧ mail_too_old 1181 1000 180 = true := by
  constructor
  · exact (c7_strict_boundary 1180 1000 180 (by decide) (by decide) (by decide)).2
      (by decide)
  · exact (c7_strict_boundary 1181 1000 180 (by decide) (by decide) (by decide)).1.mpr
      (by decide)

/-- C8: on the success path, `move_email` performs exactly three protocol
steps in this order: copy to the target folder, flag the original as
deleted, expunge — and does not panic. -/
theorem c8_move_email_success_trace (mail_uid : Nat) (target_folder : String) :
    move_email mail_uid target_folder true true true =
      ([.copy mail_uid target_folder, .storeDeleted mail_uid, .expunge], false) := rfl

/-- C9: `person_allowed` is exact, case-sensitive membership of the
sender name in the allow-list; in particular "Alice" against ["alice"]
is not allowed. -/
theorem c9_person_allowed_exact_case_sensitive :
    (∀ (person : String) (allowed_people : List String),
        person_allowed person allowed_people = true ↔ person ∈ allowed_people) ∧
      person_allowed "Alice" ["alice"] = false := by
  refine ⟨fun person allowed_people => ?_, by decide⟩
  simp [person_allowed, List.elem_iff]

/-- C10: with an empty allow-list no sender is allowed, with an empty
trigger list no subject triggers, and a batch processed with either list
empty performs no copy/flag/expunge step and no notification. -/
theorem c10_empty_lists_never_match :
    (∀ person : String, person_allowed person [] = false) ∧
      (∀ subject : String, subject_is_triggering subject [] = false) ∧
      (∀ (fetchRes : Nat → FetchRes) (mv : Nat → Bool × Bool × Bool)
          (now : Int) (limit_secs : Nat) (triggering_subjects : List String)
          (uids : List Nat),
        ((process_batch fetchRes mv now limit_secs [] triggering_subjects
            uids).1.filter is_action_event) = []) ∧
      (∀ (fetchRes : Nat → FetchRes) (mv : Nat → Bool × Bool × Bool)
          (now : Int) (limit_secs : Nat) (allowed_people : List String)
          (uids : List Nat),
        ((process_batch fetchRes mv now limit_secs allowed_people []
            uids).1.filter is_action_event) = []) := by
  refine ⟨fun _ => rfl, fun _ => rfl,
    fun fetchRes mv now limit_secs triggering_subjects uids => ?_,
    fun fetchRes mv now limit_secs allowed_people uids => ?_⟩
  · exact process_batch_no_action_of_no_match fetchRes mv now limit_secs
      [] triggering_subjects
      (fun e => by simp [message_matches, person_allowed]) uids
  · exact process_batch_no_action_of_no_match fetchRes mv now limit_secs
      allowed_people []
      (fun e => by simp [message_matches, subject_is_triggering]) uids

end ImapListener
